import Mathlib

/-!
Shallow embedding of `src/app.py` (Flask-Practice): a small inventory tracker
backed by SQLAlchemy over SQLite.

Store semantics follow what the declared schema actually enforces on the
SQLite engine the app creates (`create_engine('sqlite:///...')` with no
event listeners, `sessionmaker(autocommit=False, autoflush=False)`):

* `users.username` is declared `unique=True, nullable=False`, so a duplicate
  username raises `IntegrityError` at commit.
* `stock.serial` is declared `String(10), nullable=False` with NO unique
  constraint (app.py line 39), so duplicate serials commit successfully.
* `stock.location_id` is declared `ForeignKey('locations.id')`, but SQLite
  only enforces foreign keys when `PRAGMA foreign_keys=ON` is issued on the
  connection; the app never issues it (no connect event listener), so a
  dangling `location_id` commits successfully.
* Primary-key ids are assigned by the store at insert, per table, starting
  at 1 and never reused.

Sessions (`flask.session`) are modelled by the two keys the app uses,
`logged_in` and `username`.  The password hashing primitive is an external
collaborator; per the spec it is an opaque one-way capability where
`check_password_hash (generate_password_hash p) q` succeeds exactly when
`q = p`.
-/

/-- Row of the `users` table (app.py lines 19-23). -/
structure UserRow where
  id : Nat
  username : String
  password_hash : String
deriving Repr, DecidableEq

/-- Row of the `locations` table (app.py lines 25-31). -/
structure LocationRow where
  id : Nat
  office : String
  zone : String
  bay : String
deriving Repr, DecidableEq

/-- Row of the `stock` table (app.py lines 36-45).  Optional columns are
`Option`; `location_id` holds the (numeric) foreign-key value as given,
which SQLite stores without checking it references a `locations` row. -/
structure StockRow where
  id : Nat
  serial : String
  mfg : Option String
  dimen : Option String
  type : Option String
  modifier : Option String
  location_id : Option Nat
deriving Repr, DecidableEq

/-- Row of the `notes` table (app.py lines 50-54). -/
structure NoteRow where
  id : Nat
  content : String
  timestamp : String
deriving Repr, DecidableEq

/-- The persistent store: the four tables in rowid order plus the next
primary-key value of each table. -/
structure Store where
  users : List UserRow
  locations : List LocationRow
  stocks : List StockRow
  notes : List NoteRow
  nextUserId : Nat
  nextLocationId : Nat
  nextStockId : Nat
  nextNoteId : Nat
deriving Repr, DecidableEq

/-- A fresh database file: empty tables, rowids starting at 1. -/
def emptyStore : Store :=
  { users := [], locations := [], stocks := [], notes := []
    nextUserId := 1, nextLocationId := 1, nextStockId := 1, nextNoteId := 1 }

/-- The two session keys the app uses: `session['logged_in']` and
`session['username']`. -/
structure SessionState where
  logged_in : Bool
  username : Option String
deriving Repr, DecidableEq

/-- A cleared / fresh Flask session: `session.get('logged_in')` is falsy. -/
def anonymousSession : SessionState := { logged_in := false, username := none }

/-- Opaque one-way hashing (werkzeug `generate_password_hash`), modelled so
that verification succeeds exactly on the hashed password. -/
def generate_password_hash (p : String) : String := "hash:" ++ p

/-- Opaque verification (werkzeug `check_password_hash`). -/
def check_password_hash (hash password : String) : Bool :=
  hash == "hash:" ++ password

/-- The distinct responses the route handlers produce. -/
inductive Response where
  /-- `redirect(url_for('index'))` -/
  | redirectIndex
  /-- `redirect(url_for('view_notes'))` -/
  | redirectNotes
  /-- `render_template('login.html', ...)` with its optional error string -/
  | loginView (error : Option String)
  /-- `render_template('index.html', users=..., stock=..., locations=...)`;
  each stock row carries its eagerly joined `Location` (or `none`) -/
  | indexView (users : List UserRow) (stock : List (StockRow × Option LocationRow))
      (locations : List LocationRow)
  /-- `render_template('notes.html', notes=...)` -/
  | notesView (notes : List NoteRow)
  /-- `render_template('image.html')` -/
  | imageView
deriving Repr, DecidableEq

/-- `create or get` block of `init_db` (app.py lines 66-80): look up the
first location with the given office code; if absent, insert one with the
given zone and bay and commit immediately. -/
def ensureLocation (office zone bay : String) (s : Store) : Store × LocationRow :=
  match s.locations.find? (fun l => l.office == office) with
  | some l => (s, l)
  | none =>
    let l : LocationRow := { id := s.nextLocationId, office := office, zone := zone, bay := bay }
    ({ s with locations := s.locations ++ [l], nextLocationId := s.nextLocationId + 1 }, l)

/-- `init_db` (app.py lines 60-105).  The two location blocks commit
immediately; the user and stock inserts stay pending on the ORM session
(autoflush is off, so the stock lookups do not see them) until the final
`db.commit()`, whose only store-side check is username uniqueness — on
`IntegrityError` the pending rows are rolled back, the committed locations
remain. -/
def init_db (s : Store) : Store :=
  let p1 := ensureLocation "TPA" "GAR" "A" s
  let s1 := p1.1
  let default_location := p1.2
  let p2 := ensureLocation "CLW" "CON" "B" s1
  let s2 := p2.1
  let new_location := p2.2
  let hashed := generate_password_hash "a"
  let pendingUsers : List UserRow :=
    match s2.users.find? (fun u => u.username == "max") with
    | some _ => []
    | none => [{ id := s2.nextUserId, username := "max", password_hash := hashed }]
  let pending1137 : List StockRow :=
    match s2.stocks.find? (fun st => st.serial == "1137") with
    | some _ => []
    | none => [{ id := s2.nextStockId, serial := "1137", mfg := some "sbp",
                 dimen := some "25x50", type := some "win", modifier := some "1",
                 location_id := some default_location.id }]
  let pending1138 : List StockRow :=
    match s2.stocks.find? (fun st => st.serial == "1138") with
    | some _ => []
    | none => [{ id := s2.nextStockId + pending1137.length, serial := "1138", mfg := some "pgt",
                 dimen := some "10x10", type := some "win", modifier := some "1",
                 location_id := some new_location.id }]
  if pendingUsers.any (fun u => s2.users.any (fun v => v.username == u.username)) then
    s2
  else
    { s2 with
      users := s2.users ++ pendingUsers
      stocks := s2.stocks ++ pending1137 ++ pending1138
      nextUserId := s2.nextUserId + pendingUsers.length
      nextStockId := s2.nextStockId + pending1137.length + pending1138.length }

/-- The POST form of `/add_stock`: `request.form['serial']` raises when the
field is absent, the other fields go through `request.form.get` (`none` when
absent).  `location_id` is the numeric value SQLite stores for the field. -/
structure StockForm where
  serial : Option String
  mfg : Option String
  dimen : Option String
  type : Option String
  modifier : Option String
  location_id : Option Nat
deriving Repr, DecidableEq

/-- `add_stock` (app.py lines 111-140).  Anonymous callers are redirected
untouched.  A missing `serial` field raises inside the `try`, is caught, and
redirects with no store interaction.  Otherwise the row is inserted and the
commit succeeds: the schema has no unique constraint on `serial` and SQLite
does not enforce the declared foreign key, so the `except IntegrityError`
branch is unreachable here. -/
def add_stock (sess : SessionState) (form : StockForm) (s : Store) :
    SessionState × Store × Response :=
  if !sess.logged_in then (sess, s, .redirectIndex)
  else
    match form.serial with
    | none => (sess, s, .redirectIndex)
    | some sn =>
      let new_item : StockRow :=
        { id := s.nextStockId, serial := sn, mfg := form.mfg, dimen := form.dimen,
          type := form.type, modifier := form.modifier, location_id := form.location_id }
      (sess,
       { s with stocks := s.stocks ++ [new_item], nextStockId := s.nextStockId + 1 },
       .redirectIndex)

/-- `index` (app.py lines 142-162): authenticated callers get all users, all
stock with the eagerly joined location, and all locations; anonymous callers
get the plain login view. -/
def index (sess : SessionState) (s : Store) : SessionState × Store × Response :=
  if sess.logged_in then
    (sess, s,
     .indexView s.users
       (s.stocks.map (fun st =>
         (st, st.location_id.bind (fun i => s.locations.find? (fun l => l.id == i)))))
       s.locations)
  else (sess, s, .loginView none)

/-- The POST form of `/login`: both fields are read with
`request.form[...]`, which raises `BadRequestKeyError` when absent. -/
structure LoginForm where
  username : Option String
  password : Option String
deriving Repr, DecidableEq

/-- `login` (app.py lines 164-179).  The two form reads are NOT inside any
`try`, so a missing field escapes the handler (modelled as `Except.error`).
Otherwise: look up the user; on success set both session keys and redirect;
on user-not-found or hash mismatch, render the login view with the single
"Invalid credentials" error, touching neither session nor store. -/
def login (sess : SessionState) (form : LoginForm) (s : Store) :
    Except String (SessionState × Store × Response) :=
  match form.username, form.password with
  | some username, some password =>
    match s.users.find? (fun u => u.username == username) with
    | some user =>
      if check_password_hash user.password_hash password then
        .ok ({ logged_in := true, username := some user.username }, s, .redirectIndex)
      else
        .ok (sess, s, .loginView (some "Invalid credentials"))
    | none => .ok (sess, s, .loginView (some "Invalid credentials"))
  | _, _ => .error "BadRequestKeyError"

/-- `logout` (app.py lines 181-184): `session.clear()` then redirect. -/
def logout (_sess : SessionState) (s : Store) : SessionState × Store × Response :=
  (anonymousSession, s, .redirectIndex)

/-- `show_image` (app.py lines 186-189): no session check, no store access. -/
def show_image (sess : SessionState) (s : Store) : SessionState × Store × Response :=
  (sess, s, .imageView)

/-- Insertion step of the store's `ORDER BY id DESC` result. -/
def insertByIdDesc (n : NoteRow) : List NoteRow → List NoteRow
  | [] => [n]
  | m :: ms => if m.id ≤ n.id then n :: m :: ms else m :: insertByIdDesc n ms

/-- The store's ordered query `query(Note).order_by(Note.id.desc())`:
the notes table sorted by id, descending. -/
def orderByIdDesc : List NoteRow → List NoteRow
  | [] => []
  | n :: ns => insertByIdDesc n (orderByIdDesc ns)

/-- `view_notes` (app.py lines 191-204): anonymous callers are redirected;
authenticated callers get all notes ordered by id descending. -/
def view_notes (sess : SessionState) (s : Store) : SessionState × Store × Response :=
  if !sess.logged_in then (sess, s, .redirectIndex)
  else (sess, s, .notesView (orderByIdDesc s.notes))

/-- `add_note` (app.py lines 206-230).  Anonymous: redirect to index.  Empty
or absent `note_content` (both falsy in Python): redirect to notes with no
store interaction.  Otherwise insert a note stamped with the current time
(`now`); the commit has no constraint to violate, so it succeeds. -/
def add_note (sess : SessionState) (content : Option String) (now : String) (s : Store) :
    SessionState × Store × Response :=
  if !sess.logged_in then (sess, s, .redirectIndex)
  else
    match content with
    | none => (sess, s, .redirectNotes)
    | some c =>
      if c == "" then (sess, s, .redirectNotes)
      else
        (sess,
         { s with notes := s.notes ++ [{ id := s.nextNoteId, content := c, timestamp := now }],
                  nextNoteId := s.nextNoteId + 1 },
         .redirectNotes)

/-- One in-scope boundary operation together with its input. -/
inductive Request where
  | addStock (form : StockForm)
  | index
  | login (form : LoginForm)
  | logout
  | viewNotes
  | addNote (content : Option String)
deriving Repr, DecidableEq

/-- Dispatch a request to its handler.  Every handler except `login` always
produces a response; `login` propagates a fault when a form field is
missing. -/
def handle (sess : SessionState) (req : Request) (now : String) (s : Store) :
    Except String (SessionState × Store × Response) :=
  match req with
  | .addStock f => .ok (add_stock sess f s)
  | .index => .ok (index sess s)
  | .login f => login sess f s
  | .logout => .ok (logout sess s)
  | .viewNotes => .ok (view_notes sess s)
  | .addNote c => .ok (add_note sess c now s)

/-- The store produced by seeding a fresh database once. -/
def seededStore : Store := init_db emptyStore

/-- The session after a successful `login("max", ...)`. -/
def authedMax : SessionState := { logged_in := true, username := some "max" }

/-- Number of `stock` rows carrying a given serial. -/
def countSerial (s : Store) (sn : String) : Nat :=
  s.stocks.countP (fun st => st.serial == sn)

/-- Number of `locations` rows carrying a given office code. -/
def countLocOffice (s : Store) (o : String) : Nat :=
  s.locations.countP (fun l => l.office == o)

/-- Number of `users` rows carrying a given username. -/
def countUsername (s : Store) (u : String) : Nat :=
  s.users.countP (fun x => x.username == u)

/-- The five seed records are all present (by their natural keys). -/
def seeded (s : Store) : Bool :=
  s.locations.any (fun l => l.office == "TPA") &&
  s.locations.any (fun l => l.office == "CLW") &&
  s.users.any (fun u => u.username == "max") &&
  s.stocks.any (fun st => st.serial == "1137") &&
  s.stocks.any (fun st => st.serial == "1138")

/-! ### Helper lemmas about the store operations -/

theorem ensureLocation_users (o z b : String) (s : Store) :
    ((ensureLocation o z b s).1).users = s.users := by
  unfold ensureLocation
  cases h : s.locations.find? (fun l => l.office == o) <;> simp [h]

theorem ensureLocation_stocks (o z b : String) (s : Store) :
    ((ensureLocation o z b s).1).stocks = s.stocks := by
  unfold ensureLocation
  cases h : s.locations.find? (fun l => l.office == o) <;> simp [h]

theorem ensureLocation_notes (o z b : String) (s : Store) :
    ((ensureLocation o z b s).1).notes = s.notes := by
  unfold ensureLocation
  cases h : s.locations.find? (fun l => l.office == o) <;> simp [h]

theorem ensureLocation_nextUserId (o z b : String) (s : Store) :
    ((ensureLocation o z b s).1).nextUserId = s.nextUserId := by
  unfold ensureLocation
  cases h : s.locations.find? (fun l => l.office == o) <;> simp [h]

theorem ensureLocation_nextStockId (o z b : String) (s : Store) :
    ((ensureLocation o z b s).1).nextStockId = s.nextStockId := by
  unfold ensureLocation
  cases h : s.locations.find? (fun l => l.office == o) <;> simp [h]

theorem ensureLocation_nextNoteId (o z b : String) (s : Store) :
    ((ensureLocation o z b s).1).nextNoteId = s.nextNoteId := by
  unfold ensureLocation
  cases h : s.locations.find? (fun l => l.office == o) <;> simp [h]

/-- After the `create or get` block, a location with the requested office
code is present. -/
theorem ensureLocation_any_office (o z b : String) (s : Store) :
    ((ensureLocation o z b s).1).locations.any (fun l => l.office == o) = true := by
  unfold ensureLocation
  cases h : s.locations.find? (fun l => l.office == o) with
  | none => simp [h]
  | some l =>
    have hm := List.mem_of_find?_eq_some h
    have hp := List.find?_some h
    simp only [h, List.any_eq_true]
    exact ⟨l, hm, hp⟩

/-- The `create or get` block only appends to `locations`, so any existing
match survives it. -/
theorem ensureLocation_any_mono (o z b : String) (s : Store) (p : LocationRow → Bool)
    (h : s.locations.any p = true) :
    ((ensureLocation o z b s).1).locations.any p = true := by
  unfold ensureLocation
  cases hf : s.locations.find? (fun l => l.office == o) <;> simp [hf, h]

/-- When a location with the requested office code already exists, the
`create or get` block changes nothing. -/
theorem ensureLocation_fix (o z b : String) (s : Store)
    (h : s.locations.any (fun l => l.office == o) = true) :
    (ensureLocation o z b s).1 = s := by
  unfold ensureLocation
  cases hf : s.locations.find? (fun l => l.office == o) with
  | none =>
    rw [List.find?_eq_none] at hf
    obtain ⟨x, hx, hpx⟩ := List.any_eq_true.mp h
    exact absurd hpx (hf x hx)
  | some l => simp [hf]

/-- A successful `find?` witnesses `any`. -/
theorem any_of_find?_eq_some {α : Type} (p : α → Bool) (l : List α) (a : α)
    (h : l.find? p = some a) : l.any p = true :=
  List.any_eq_true.mpr ⟨a, List.mem_of_find?_eq_some h, List.find?_some h⟩

/-- One run of `init_db` leaves all five seed records present, whatever the
starting state. -/
theorem seeded_init_db (s : Store) : seeded (init_db s) = true := by
  simp only [init_db]
  have hTPA := ensureLocation_any_mono "CLW" "CON" "B" (ensureLocation "TPA" "GAR" "A" s).1
      (fun l => l.office == "TPA") (ensureLocation_any_office "TPA" "GAR" "A" s)
  have hCLW := ensureLocation_any_office "CLW" "CON" "B" (ensureLocation "TPA" "GAR" "A" s).1
  set s2 := (ensureLocation "CLW" "CON" "B" (ensureLocation "TPA" "GAR" "A" s).1).1 with hs2
  cases hmu : List.find? (fun u => u.username == "max") s2.users with
  | some u =>
    have hu : s2.users.any (fun x => x.username == "max") = true :=
      any_of_find?_eq_some _ _ u hmu
    cases h37 : List.find? (fun st => st.serial == "1137") s2.stocks with
    | some a =>
      have ha : s2.stocks.any (fun st => st.serial == "1137") = true :=
        any_of_find?_eq_some _ _ a h37
      cases h38 : List.find? (fun st => st.serial == "1138") s2.stocks with
      | some b =>
        have hb : s2.stocks.any (fun st => st.serial == "1138") = true :=
          any_of_find?_eq_some _ _ b h38
        simp [seeded, hmu, h37, h38, hTPA, hCLW, hu, ha, hb]
      | none => simp [seeded, hmu, h37, h38, hTPA, hCLW, hu, ha]
    | none =>
      cases h38 : List.find? (fun st => st.serial == "1138") s2.stocks with
      | some b =>
        have hb : s2.stocks.any (fun st => st.serial == "1138") = true :=
          any_of_find?_eq_some _ _ b h38
        simp [seeded, hmu, h37, h38, hTPA, hCLW, hu, hb]
      | none => simp [seeded, hmu, h37, h38, hTPA, hCLW, hu]
  | none =>
    have hcond : s2.users.any (fun v => v.username == "max") = false :=
      List.any_eq_false.mpr (List.find?_eq_none.mp hmu)
    cases h37 : List.find? (fun st => st.serial == "1137") s2.stocks with
    | some a =>
      have ha : s2.stocks.any (fun st => st.serial == "1137") = true :=
        any_of_find?_eq_some _ _ a h37
      cases h38 : List.find? (fun st => st.serial == "1138") s2.stocks with
      | some b =>
        have hb : s2.stocks.any (fun st => st.serial == "1138") = true :=
          any_of_find?_eq_some _ _ b h38
        simp [seeded, hmu, h37, h38, hTPA, hCLW, hcond, ha, hb]
      | none => simp [seeded, hmu, h37, h38, hTPA, hCLW, hcond, ha]
    | none =>
      cases h38 : List.find? (fun st => st.serial == "1138") s2.stocks with
      | some b =>
        have hb : s2.stocks.any (fun st => st.serial == "1138") = true :=
          any_of_find?_eq_some _ _ b h38
        simp [seeded, hmu, h37, h38, hTPA, hCLW, hcond, hb]
      | none => simp [seeded, hmu, h37, h38, hTPA, hCLW, hcond]

/-- On a store that already holds the five seed records, `init_db` changes
nothing: every lookup hits, nothing is pending, the commit is empty. -/
theorem init_db_fix (s : Store) (h : seeded s = true) : init_db s = s := by
  unfold seeded at h
  simp only [Bool.and_eq_true] at h
  obtain ⟨⟨⟨⟨hTPA, hCLW⟩, hmax⟩, h37⟩, h38⟩ := h
  have e1 : (ensureLocation "TPA" "GAR" "A" s).1 = s := ensureLocation_fix _ _ _ _ hTPA
  have e2 : (ensureLocation "CLW" "CON" "B" s).1 = s := ensureLocation_fix _ _ _ _ hCLW
  simp only [init_db, e1, e2]
  cases hmu : List.find? (fun u => u.username == "max") s.users with
  | none =>
    rw [List.find?_eq_none] at hmu
    obtain ⟨x, hx, hpx⟩ := List.any_eq_true.mp hmax
    exact absurd hpx (hmu x hx)
  | some u =>
    cases hf37 : List.find? (fun st => st.serial == "1137") s.stocks with
    | none =>
      rw [List.find?_eq_none] at hf37
      obtain ⟨x, hx, hpx⟩ := List.any_eq_true.mp h37
      exact absurd hpx (hf37 x hx)
    | some a =>
      cases hf38 : List.find? (fun st => st.serial == "1138") s.stocks with
      | none =>
        rw [List.find?_eq_none] at hf38
        obtain ⟨x, hx, hpx⟩ := List.any_eq_true.mp h38
        exact absurd hpx (hf38 x hx)
      | some b => simp [hmu, hf37, hf38]

/-- Iterating `init_db` at least once is the same as running it once. -/
theorem init_db_iter (s : Store) (n : Nat) (h : 1 ≤ n) :
    init_db^[n] s = init_db s := by
  induction n with
  | zero => omega
  | succ k ih =>
    cases Nat.eq_zero_or_pos k with
    | inl hk => subst hk; simp
    | inr hk =>
      rw [Function.iterate_succ_apply', ih hk]
      exact init_db_fix _ (seeded_init_db s)

/-- Inserting a note whose id is below everything in the list lands at the
end. -/
theorem insertByIdDesc_append (n : NoteRow) (l : List NoteRow)
    (h : ∀ m ∈ l, n.id < m.id) : insertByIdDesc n l = l ++ [n] := by
  induction l with
  | nil => rfl
  | cons m ms ih =>
    have hm := h m (List.mem_cons_self m ms)
    rw [insertByIdDesc, if_neg (by omega),
        ih (fun x hx => h x (List.mem_cons_of_mem m hx))]
    rfl

/-- On a table whose ids strictly increase in rowid order — which is how
every insert builds it — `ORDER BY id DESC` is exactly reversal. -/
theorem orderByIdDesc_eq_reverse (l : List NoteRow)
    (h : List.Pairwise (fun a b => a.id < b.id) l) : orderByIdDesc l = l.reverse := by
  induction l with
  | nil => rfl
  | cons n ns ih =>
    rw [List.pairwise_cons] at h
    rw [orderByIdDesc, ih h.2,
        insertByIdDesc_append n ns.reverse (fun m hm => h.1 m (List.mem_reverse.mp hm))]
    simp

/-! ### The claims -/

/-- C1 (divergence witness): the spec says a second `add_stock` with an
already-present serial inserts no duplicate row, but `stock.serial` carries
no unique constraint, so on the seeded store (one row with serial "1137")
an authenticated `add_stock` with serial "1137" commits a second row:
the count goes from 1 to 2, with no fault. -/
theorem add_stock_duplicate_serial_behavior :
    countSerial seededStore "1137" = 1 ∧
    countSerial (add_stock authedMax
      { serial := some "1137", mfg := none, dimen := none, type := none,
        modifier := none, location_id := none } seededStore).2.1 "1137" = 2 :=
  ⟨by decide, by decide⟩

/-- C2 (divergence witness): the spec says a Stock whose `location_id`
references no Location is rejected by the store at commit; but SQLite does
not enforce the declared foreign key (the app never issues
`PRAGMA foreign_keys=ON`), so an authenticated `add_stock` with
`location_id = 999` on the seeded store persists a row whose `location_id`
references no existing Location. -/
theorem add_stock_dangling_location_behavior :
    ((add_stock authedMax
      { serial := some "9999", mfg := none, dimen := none, type := none,
        modifier := none, location_id := some 999 } seededStore).2.1.stocks.any
        (fun st => st.serial == "9999" && st.location_id == some 999)) = true ∧
    ((add_stock authedMax
      { serial := some "9999", mfg := none, dimen := none, type := none,
        modifier := none, location_id := some 999 } seededStore).2.1.locations.any
        (fun l => l.id == 999)) = false :=
  ⟨by decide, by decide⟩

/-- C3 counterexample: from a starting store that already holds two
locations with office "TPA", one run of the Seed Initializer leaves two
rows with office "TPA", not exactly one — refuting the claim's
"from any starting store state ... exactly one Location per office code". -/
theorem init_db_exactly_one_counterexample :
    countLocOffice (init_db
      { users := [], locations := [⟨1, "TPA", "GAR", "A"⟩, ⟨2, "TPA", "GAR", "B"⟩],
        stocks := [], notes := [],
        nextUserId := 1, nextLocationId := 3, nextStockId := 1, nextNoteId := 1 }) "TPA" = 2 := by
  decide

/-- C3 (amended): running the Seed Initializer N times (N ≥ 1) from any
starting store state yields the same final state as running it once; and
starting from the empty store the final state holds exactly one Location
per office code in TPA, CLW, exactly one User named "max", and exactly one
Stock row per serial in "1137", "1138". -/
theorem init_db_idempotent_amended (s : Store) (n : Nat) (h : 1 ≤ n) :
    init_db^[n] s = init_db s ∧
    countLocOffice seededStore "TPA" = 1 ∧ countLocOffice seededStore "CLW" = 1 ∧
    countUsername seededStore "max" = 1 ∧
    countSerial seededStore "1137" = 1 ∧ countSerial seededStore "1138" = 1 :=
  ⟨init_db_iter s n h, by decide, by decide, by decide, by decide, by decide⟩

theorem init_db_idempotent_amended_witness :
    1 ≤ 3 ∧
    (init_db^[3] emptyStore = init_db emptyStore ∧
     countLocOffice seededStore "TPA" = 1 ∧ countLocOffice seededStore "CLW" = 1 ∧
     countUsername seededStore "max" = 1 ∧
     countSerial seededStore "1137" = 1 ∧ countSerial seededStore "1138" = 1) :=
  ⟨by decide, init_db_idempotent_amended emptyStore 3 (by decide)⟩

/-- C4: with an anonymous session, `add_stock`, `index`, `add_note` and
`view_notes` each leave the session and the store untouched and return only
a redirect or the bare login view — no entity data. -/
theorem anonymous_gating (sess : SessionState) (s : Store) (f : StockForm)
    (c : Option String) (t : String) (h : sess.logged_in = false) :
    add_stock sess f s = (sess, s, Response.redirectIndex) ∧
    index sess s = (sess, s, Response.loginView none) ∧
    add_note sess c t s = (sess, s, Response.redirectIndex) ∧
    view_notes sess s = (sess, s, Response.redirectIndex) := by
  simp [add_stock, index, add_note, view_notes, h]

theorem anonymous_gating_witness :
    anonymousSession.logged_in = false ∧
    (add_stock anonymousSession
       { serial := some "1", mfg := none, dimen := none, type := none,
         modifier := none, location_id := none } seededStore =
         (anonymousSession, seededStore, Response.redirectIndex) ∧
     index anonymousSession seededStore =
       (anonymousSession, seededStore, Response.loginView none) ∧
     add_note anonymousSession (some "x") "t" seededStore =
       (anonymousSession, seededStore, Response.redirectIndex) ∧
     view_notes anonymousSession seededStore =
       (anonymousSession, seededStore, Response.redirectIndex)) :=
  ⟨rfl, anonymous_gating anonymousSession seededStore
    { serial := some "1", mfg := none, dimen := none, type := none,
      modifier := none, location_id := none } (some "x") "t" rfl⟩

/-- C5 counterexample: a `login` whose form lacks the `username` field does
not complete with a defined view — the bare `request.form['username']`
access raises, and the fault leaves the handler. -/
theorem login_missing_field_fault :
    handle anonymousSession (Request.login { username := none, password := some "x" }) "t"
      emptyStore = Except.error "BadRequestKeyError" := rfl

/-- A request on which no bare `request.form[...]` access can raise: any
request other than a `login` missing one of its two form fields. -/
def formComplete : Request → Prop
  | .login f => f.username ≠ none ∧ f.password ≠ none
  | _ => True

/-- C5 (amended): every in-scope operation completes with a defined view or
redirect on every input and store outcome, except that `login` with a
missing `username` or `password` form field raises an unhandled
key-lookup fault. -/
theorem handle_total_amended (sess : SessionState) (req : Request) (now : String) (s : Store)
    (h : formComplete req) : ∃ r, handle sess req now s = Except.ok r := by
  cases req with
  | addStock f => exact ⟨_, rfl⟩
  | index => exact ⟨_, rfl⟩
  | logout => exact ⟨_, rfl⟩
  | viewNotes => exact ⟨_, rfl⟩
  | addNote c => exact ⟨_, rfl⟩
  | login f =>
    simp only [formComplete] at h
    obtain ⟨hu, hp⟩ := h
    obtain ⟨u, p⟩ := f
    cases u with
    | none => exact absurd rfl hu
    | some u =>
      cases p with
      | none => exact absurd rfl hp
      | some p =>
        unfold handle login
        cases hf : List.find? (fun x => x.username == u) s.users with
        | none => simp [hf]
        | some w =>
          by_cases hc : check_password_hash w.password_hash p = true
          · simp [hf, hc]
          · simp [hf, hc]

theorem handle_total_amended_witness :
    formComplete Request.index ∧
    ∃ r, handle anonymousSession Request.index "t" emptyStore = Except.ok r :=
  ⟨True.intro, handle_total_amended anonymousSession Request.index "t" emptyStore True.intro⟩

/-- C6: a login failing because the username is unknown and a login failing
because the password does not verify produce the very same outcome — the
single "Invalid credentials" login view with session and store untouched. -/
theorem login_failure_indistinguishable (sess : SessionState) (s : Store)
    (u1 p1 u2 p2 : String) (w : UserRow)
    (h1 : s.users.find? (fun x => x.username == u1) = none)
    (h2 : s.users.find? (fun x => x.username == u2) = some w)
    (h3 : check_password_hash w.password_hash p2 = false) :
    login sess { username := some u1, password := some p1 } s =
      login sess { username := some u2, password := some p2 } s ∧
    login sess { username := some u1, password := some p1 } s =
      Except.ok (sess, s, Response.loginView (some "Invalid credentials")) := by
  unfold login
  simp [h1, h2, h3]

theorem login_failure_indistinguishable_witness :
    seededStore.users.find? (fun x => x.username == "nouser") = none ∧
    seededStore.users.find? (fun x => x.username == "max") =
      some { id := 1, username := "max", password_hash := "hash:a" } ∧
    check_password_hash "hash:a" "wrong" = false ∧
    (login anonymousSession { username := some "nouser", password := some "x" } seededStore =
       login anonymousSession { username := some "max", password := some "wrong" } seededStore ∧
     login anonymousSession { username := some "nouser", password := some "x" } seededStore =
       Except.ok (anonymousSession, seededStore, Response.loginView (some "Invalid credentials"))) :=
  ⟨rfl, rfl, rfl,
   login_failure_indistinguishable anonymousSession seededStore "nouser" "x" "max" "wrong"
     { id := 1, username := "max", password_hash := "hash:a" } rfl rfl rfl⟩

/-- C7: after seeding, `login("max","a")` succeeds and authenticates the
session as "max"; `login("max","wrong")` and `login("nouser","x")` both fail
with the same generic invalid-credentials view, leaving the session
anonymous. -/
theorem auth_correctness_seeded :
    login anonymousSession { username := some "max", password := some "a" } seededStore =
      Except.ok ({ logged_in := true, username := some "max" }, seededStore,
        Response.redirectIndex) ∧
    login anonymousSession { username := some "max", password := some "wrong" } seededStore =
      Except.ok (anonymousSession, seededStore, Response.loginView (some "Invalid credentials")) ∧
    login anonymousSession { username := some "nouser", password := some "x" } seededStore =
      Except.ok (anonymousSession, seededStore, Response.loginView (some "Invalid credentials")) :=
  ⟨rfl, rfl, rfl⟩

/-- C8: authenticated `view_notes` leaves session and store untouched and
returns all notes ordered by id descending; since inserts append with
strictly increasing ids, that is the reverse of insertion order
(N1, N2, N3 comes back as N3, N2, N1). -/
theorem view_notes_ordered_desc (sess : SessionState) (s : Store)
    (hauth : sess.logged_in = true)
    (hids : List.Pairwise (fun a b => a.id < b.id) s.notes) :
    view_notes sess s = (sess, s, Response.notesView s.notes.reverse) := by
  simp [view_notes, hauth, orderByIdDesc_eq_reverse s.notes hids]

/-- A store holding exactly the notes N1, N2, N3, inserted in that order. -/
def threeNoteStore : Store :=
  { users := [], locations := [], stocks := [],
    notes := [⟨1, "N1", "t1"⟩, ⟨2, "N2", "t2"⟩, ⟨3, "N3", "t3"⟩],
    nextUserId := 1, nextLocationId := 1, nextStockId := 1, nextNoteId := 4 }

theorem view_notes_ordered_desc_witness :
    authedMax.logged_in = true ∧
    List.Pairwise (fun a b : NoteRow => a.id < b.id) threeNoteStore.notes ∧
    view_notes authedMax threeNoteStore =
      (authedMax, threeNoteStore, Response.notesView threeNoteStore.notes.reverse) :=
  ⟨rfl, by decide, view_notes_ordered_desc authedMax threeNoteStore rfl (by decide)⟩

/-- C9: an authenticated `add_stock` whose form lacks the `serial` field is
a pure no-op before any store interaction: the store is returned unchanged
and the caller is redirected to the index. -/
theorem add_stock_missing_serial_noop (sess : SessionState) (s : Store) (f : StockForm)
    (hauth : sess.logged_in = true) (hser : f.serial = none) :
    add_stock sess f s = (sess, s, Response.redirectIndex) := by
  simp [add_stock, hauth, hser]

theorem add_stock_missing_serial_noop_witness :
    authedMax.logged_in = true ∧
    (StockForm.mk none none none none none none).serial = none ∧
    add_stock authedMax (StockForm.mk none none none none none none) seededStore =
      (authedMax, seededStore, Response.redirectIndex) :=
  ⟨rfl, rfl, add_stock_missing_serial_noop authedMax seededStore
    (StockForm.mk none none none none none none) rfl rfl⟩

/-- C10: `show_image` is reachable in any session state without
authentication, reads and writes nothing in the store, leaves the session
unchanged, and returns the image view. -/
theorem show_image_ungated (sess : SessionState) (s : Store) :
    show_image sess s = (sess, s, Response.imageView) := rfl
